import Mathlib

/-!
# nmon2influxdb: configuration resolution and database provisioning

A shallow embedding of `nmon2influxdblib/config.go` (and `CheckError` of
`nmon2influxdblib/helpers.go`).

* Go code that can end the process (`log.Fatal`, `os.Exit`) is a `Proc`: a function
  from the state of the outside world to an `Outcome` and the next state.
* The InfluxDB client library, the operating system and the TOML library are not part
  of the repository; they are records of operations (`Store`, `OS`) the code is
  parametrised by. Every `(value, error)` pair of Go is a pair whose second component
  is an `Option Error`, `none` standing for `nil`.
* Text written to standard output by `fmt.Printf` is not modelled.
-/

namespace Nmon2influxdb

/-! ## Process model -/

/-- A Go `error` value that is not `nil`, reduced to its message. -/
abbrev Error := String

/-- How a call ends: it returns to its caller, or the process is terminated
(`log.Fatal`, `os.Exit(1)`). -/
inductive Outcome (α : Type) where
  | returned (a : α)
  | fatal (e : Error)
  deriving DecidableEq, Repr

/-- A computation over the outside world `ω` that may terminate the process. -/
def Proc (ω α : Type) : Type := ω → Outcome α × ω

/-- Sequencing: nothing runs after the process has been terminated. -/
def Proc.bind {ω α β : Type} (m : Proc ω α) (f : α → Proc ω β) : Proc ω β :=
  fun w =>
    match m w with
    | (Outcome.returned a, w1) => f a w1
    | (Outcome.fatal e, w1) => (Outcome.fatal e, w1)

/-- Plain return. -/
def Proc.pure {ω α : Type} (a : α) : Proc ω α := fun w => (Outcome.returned a, w)

instance {ω : Type} : Monad (Proc ω) where
  pure := Proc.pure
  bind := Proc.bind

/-- Go `len` of a string: its number of bytes. -/
def len (s : String) : Nat := s.utf8ByteSize

/-- `CheckError` of helpers.go: `log.Fatal(e)` when `e != nil`. -/
def CheckError {ω : Type} (e : Option Error) : Proc ω Unit :=
  fun w =>
    match e with
    | some err => (Outcome.fatal err, w)
    | none => (Outcome.returned (), w)

/-! ## Data model -/

/-- Modelled from the spec: the `Tag` type is declared outside the two source files;
the spec describes it as a key/value pair. -/
structure Tag where
  Name : String
  Value : String
  deriving DecidableEq, Repr

/-- `Tags` (a slice of `Tag`). -/
abbrev Tags := List Tag

/-- `Input` of config.go. -/
structure Input where
  Measurement : String
  Name : String
  Match : String
  Tags : Tags
  deriving DecidableEq, Repr

/-- `Inputs` of config.go. -/
abbrev Inputs := List Input

/-- `Config` of config.go, field for field. -/
structure Config where
  Debug : Bool
  Timezone : String
  InfluxdbUser : String
  InfluxdbPassword : String
  InfluxdbServer : String
  InfluxdbPort : String
  InfluxdbDatabase : String
  GrafanaUser : String
  GrafanaPassword : String
  GrafanaURL : String
  GrafanaAccess : String
  GrafanaDatasource : String
  HMCServer : String
  HMCUser : String
  HMCPassword : String
  HMCDatabase : String
  HMCDataRetention : String
  HMCManagedSystem : String
  HMCManagedSystemOnly : Bool
  HMCSamples : Int
  ImportSkipDisks : Bool
  ImportAllCpus : Bool
  ImportBuildDashboard : Bool
  ImportForce : Bool
  ImportSkipMetrics : String
  ImportLogDatabase : String
  ImportLogRetention : String
  ImportDataRetention : String
  ImportSSHUser : String
  ImportSSHKey : String
  DashboardWriteFile : Bool
  StatsLimit : Int
  StatsSort : String
  StatsFilter : String
  StatsFrom : String
  StatsTo : String
  StatsHost : String
  Metric : String
  ListFilter : String
  ListHost : String
  Inputs : Inputs
  deriving DecidableEq, Repr

/-! ## The backing store -/

/-- `influxdbclient.InfluxDBConfig`, as config.go fills it. -/
structure InfluxDBConfig where
  Host : String
  Port : String
  Database : String
  User : String
  Pass : String
  Debug : Bool
  deriving DecidableEq, Repr

/-- The handle `influxdbclient.InfluxDB`: what it was configured with. -/
structure InfluxDB where
  config : InfluxDBConfig
  deriving DecidableEq, Repr

/-- A round trip to the backing store, as seen from outside. -/
inductive Call where
  | ExistDB (db : String)
  | CreateDB (db : String)
  | GetDefaultRetentionPolicy
  | SetRetentionPolicy (name duration : String) (isDefault : Bool)
  | UpdateRetentionPolicy (name duration : String) (isDefault : Bool)
  deriving DecidableEq, Repr

/-- The operations of the InfluxDB client used by config.go, over a store state `σ`.
Each returns what the Go method returns and the next store state; the first results of
`CreateDB`, `SetRetentionPolicy` and `UpdateRetentionPolicy`, which config.go never
reads, are left out. -/
structure Store (σ : Type) where
  NewInfluxDB : InfluxDBConfig → InfluxDB × Option Error
  ExistDB : σ → InfluxDB → String → (Bool × Option Error) × σ
  CreateDB : σ → InfluxDB → String → Option Error × σ
  GetDefaultRetentionPolicy : σ → InfluxDB → (String × Option Error) × σ
  SetRetentionPolicy : σ → InfluxDB → String → String → Bool → Option Error × σ
  UpdateRetentionPolicy : σ → InfluxDB → String → String → Bool → Option Error × σ

/-- The store together with the calls issued to it so far, oldest first. -/
structure World (σ : Type) where
  store : σ
  calls : List Call

/-- `influxdb.ExistDB(db)`. -/
def Store.existDB {σ : Type} (S : Store σ) (h : InfluxDB) (db : String) :
    Proc (World σ) (Bool × Option Error) :=
  fun w =>
    let r := S.ExistDB w.store h db
    (Outcome.returned r.1, { store := r.2, calls := w.calls ++ [Call.ExistDB db] })

/-- `influxdb.CreateDB(db)`. -/
def Store.createDB {σ : Type} (S : Store σ) (h : InfluxDB) (db : String) :
    Proc (World σ) (Option Error) :=
  fun w =>
    let r := S.CreateDB w.store h db
    (Outcome.returned r.1, { store := r.2, calls := w.calls ++ [Call.CreateDB db] })

/-- `influxdb.GetDefaultRetentionPolicy()`. -/
def Store.getDefaultRetentionPolicy {σ : Type} (S : Store σ) (h : InfluxDB) :
    Proc (World σ) (String × Option Error) :=
  fun w =>
    let r := S.GetDefaultRetentionPolicy w.store h
    (Outcome.returned r.1,
      { store := r.2, calls := w.calls ++ [Call.GetDefaultRetentionPolicy] })

/-- `influxdb.SetRetentionPolicy(name, duration, isDefault)`. -/
def Store.setRetentionPolicy {σ : Type} (S : Store σ) (h : InfluxDB)
    (name duration : String) (isDefault : Bool) : Proc (World σ) (Option Error) :=
  fun w =>
    let r := S.SetRetentionPolicy w.store h name duration isDefault
    (Outcome.returned r.1,
      { store := r.2, calls := w.calls ++ [Call.SetRetentionPolicy name duration isDefault] })

/-- `influxdb.UpdateRetentionPolicy(name, duration, isDefault)`. -/
def Store.updateRetentionPolicy {σ : Type} (S : Store σ) (h : InfluxDB)
    (name duration : String) (isDefault : Bool) : Proc (World σ) (Option Error) :=
  fun w =>
    let r := S.UpdateRetentionPolicy w.store h name duration isDefault
    (Outcome.returned r.1,
      { store := r.2,
        calls := w.calls ++ [Call.UpdateRetentionPolicy name duration isDefault] })

/-! ## Database provisioning (config.go, lines 248-311) -/

/-- `Config.ConnectDB`: build the client configuration, create the client, terminate
on error. -/
def ConnectDB {σ : Type} (S : Store σ) (config : Config) (db : String) :
    Proc (World σ) InfluxDB := do
  let influxdbConfig : InfluxDBConfig :=
    { Host := config.InfluxdbServer
      Port := config.InfluxdbPort
      Database := db
      User := config.InfluxdbUser
      Pass := config.InfluxdbPassword
      Debug := config.Debug }
  let (influxdb, err) := S.NewInfluxDB influxdbConfig
  CheckError err
  return influxdb

/-- `Config.GetDB`: create or get the database used for nmon data (or, for
`dbType == "hmc"`, for HMC data). -/
def GetDB {σ : Type} (S : Store σ) (config : Config) (dbType : String) :
    Proc (World σ) InfluxDB := do
  let mut db := config.InfluxdbDatabase
  let mut retention := config.ImportDataRetention
  if dbType == "hmc" then
    db := config.HMCDatabase
    retention := config.HMCDataRetention
  let influxdb ← ConnectDB S config db
  let (exist, _) ← S.existDB influxdb db
  if exist != true then
    let createErr ← S.createDB influxdb db
    CheckError createErr
  -- update default retention policy if ImportDataRetention is set
  if len retention > 0 then
    let (policyName, policyErr) ← S.getDefaultRetentionPolicy influxdb
    CheckError policyErr
    let err ← S.updateRetentionPolicy influxdb policyName retention true
    CheckError err
  return influxdb

/-- `Config.GetLogDB`: create or get the log database. -/
def GetLogDB {σ : Type} (S : Store σ) (config : Config) : Proc (World σ) InfluxDB := do
  let influxdb ← ConnectDB S config config.ImportLogDatabase
  let (exist, _) ← S.existDB influxdb config.ImportLogDatabase
  if exist != true then
    let err ← S.createDB influxdb config.ImportLogDatabase
    CheckError err
    let err ← S.setRetentionPolicy influxdb "log_retention" config.ImportLogRetention true
    CheckError err
  else
    let err ← S.updateRetentionPolicy influxdb "log_retention" config.ImportLogRetention true
    CheckError err
  return influxdb

/-! ## The operating system, the TOML library and the command line -/

/-- Contents of a file (`[]byte`). -/
abbrev Bytes := List Nat

/-- The number type of Go `int` flags. -/
abbrev GoInt := Int

/-- The type of Go `bool` flags. -/
abbrev GoBool := Bool

/-- The type of Go `string` flags, and of flag names. -/
abbrev GoString := String

/-- `os/user.User`, the two fields config.go reads. -/
structure User where
  Username : String
  HomeDir : String
  deriving DecidableEq, Repr

/-- What `os.Stat` tells about an existing path: `stat.Mode().IsRegular()`. -/
structure FileMode where
  IsRegular : Bool
  deriving DecidableEq, Repr

/-- The operations of the Go standard library and of the TOML library used by
config.go, over a file-system state `φ`. An operation whose value config.go reads only
when the error is `nil` returns an `Except` or the error alone.
`user.Current()` is taken to succeed (its error is discarded by config.go).
`Write` stands for writing the marshalled bytes, flushing and closing, none of whose
results config.go inspects. -/
structure OS (φ : Type) where
  Current : User
  Join : String → String → String
  Stat : φ → String → Except Error FileMode
  Create : φ → String → Option Error × φ
  Write : φ → String → Bytes → φ
  Open : φ → String → Option Error
  ReadAll : φ → String → Bytes × Option Error
  Marshal : Config → Bytes × Option Error
  Unmarshal : Bytes → Config → Except Error Config

/-- `cli.Context`: the lookups config.go performs on the parsed command line. -/
structure Context where
  String : GoString → GoString
  Int : GoString → GoInt
  Bool : GoString → GoBool
  IsSet : GoString → GoBool
  GlobalBool : GoString → GoBool
  GlobalString : GoString → GoString

/-- The current state of the outside world. -/
def Proc.get {ω : Type} : Proc ω ω := fun w => (Outcome.returned w, w)

/-- `os.Exit(1)` after a diagnostic. -/
def Proc.exit {ω α : Type} (e : Error) : Proc ω α := fun w => (Outcome.fatal e, w)

/-- `os.Create(cfgfile)`. -/
def OS.create {φ : Type} (os : OS φ) (file : String) : Proc φ (Option Error) :=
  fun fs => (Outcome.returned (os.Create fs file).1, (os.Create fs file).2)

/-- `r.WriteTo(writer); writer.Flush()` and the deferred `file.Close()`. -/
def OS.write {φ : Type} (os : OS φ) (file : String) (b : Bytes) : Proc φ Unit :=
  fun fs => (Outcome.returned (), os.Write fs file b)

/-! ## Configuration resolution (config.go, lines 76-246) -/

/-- `InitConfig`: initial configuration. Fields the Go literal does not list have
their zero value. -/
def InitConfig {φ : Type} (os : OS φ) : Config :=
  let currUser := os.Current
  let home := currUser.HomeDir
  let sshKey := os.Join home "/.ssh/id_rsa"
  { Debug := false
    Timezone := "Europe/Paris"
    InfluxdbUser := "root"
    InfluxdbPassword := "root"
    InfluxdbServer := "localhost"
    InfluxdbPort := "8086"
    InfluxdbDatabase := "nmon_reports"
    HMCUser := "hscroot"
    HMCPassword := "abc123"
    HMCDatabase := "nmon2influxdbHMC"
    GrafanaUser := "admin"
    GrafanaPassword := "admin"
    GrafanaURL := "http://localhost:3000"
    GrafanaAccess := "direct"
    GrafanaDatasource := "nmon2influxdb"
    ImportSkipDisks := false
    ImportAllCpus := false
    ImportBuildDashboard := false
    ImportForce := false
    ImportLogDatabase := "nmon2influxdb_log"
    ImportLogRetention := "2d"
    ImportSSHUser := currUser.Username
    ImportSSHKey := sshKey
    DashboardWriteFile := false
    ImportSkipMetrics := "JFSINODE|TOP|PCPU"
    StatsLimit := 20
    StatsSort := "mean"
    StatsFilter := ""
    StatsFrom := ""
    StatsTo := ""
    StatsHost := ""
    HMCServer := ""
    HMCDataRetention := ""
    HMCManagedSystem := ""
    HMCManagedSystemOnly := false
    HMCSamples := 0
    ImportDataRetention := ""
    Metric := ""
    ListFilter := ""
    ListHost := ""
    Inputs := [] }

/-- `IsFile`: the stat of the path succeeds and describes a regular file. -/
def IsFile {φ : Type} (os : OS φ) (fs : φ) (file : String) : Bool :=
  match os.Stat fs file with
  | Except.error _ => false
  | Except.ok stat => if stat.IsRegular then true else false

/-- `GetCfgFile`: the path of the configuration file in use. -/
def GetCfgFile {φ : Type} (os : OS φ) (fs : φ) : String :=
  if IsFile os fs "/etc/nmon2influxdb/nmon2influxdb.cfg" then
    "/etc/nmon2influxdb/nmon2influxdb.cfg"
  else
    let currUser := os.Current
    let home := currUser.HomeDir
    let homeCFGfile := os.Join home ".nmon2influxdb.cfg"
    homeCFGfile

/-- `Config.BuildCfgFile`: write the configuration to `cfgfile`. -/
def BuildCfgFile {φ : Type} (os : OS φ) (config : Config) (cfgfile : String) :
    Proc φ Unit := do
  let err ← os.create cfgfile
  CheckError err
  let (b, err) := os.Marshal config
  CheckError err
  os.write cfgfile b

/-- `Config.LoadCfgFile`: returns the path of the configuration file and the receiver
as the file leaves it. -/
def LoadCfgFile {φ : Type} (os : OS φ) (config : Config) : Proc φ (String × Config) := do
  let cfgfile := GetCfgFile os (← Proc.get)
  if !(IsFile os (← Proc.get) cfgfile) then
    BuildCfgFile os config cfgfile
  let fs ← Proc.get
  let err := os.Open fs cfgfile
  if err != none then
    -- "Error opening configuration file"
    return (cfgfile, config)
  let (buf, err) := os.ReadAll fs cfgfile
  if err != none then
    CheckError err
  match os.Unmarshal buf config with
  | Except.error e =>
    -- "syntax error in configuration file"
    Proc.exit e
  | Except.ok loaded =>
    return (cfgfile, loaded)

/-- `Config.AddDashboardParams`: take the dashboard parameters from a fresh
configuration made of the defaults and the file. -/
def AddDashboardParams {φ : Type} (os : OS φ) (config : Config) : Proc φ Config := do
  let dfltConfig := InitConfig os
  let (_, dfltConfig) ← LoadCfgFile os dfltConfig
  let mut config := config
  config := { config with GrafanaAccess := dfltConfig.GrafanaAccess }
  config := { config with GrafanaURL := dfltConfig.GrafanaURL }
  config := { config with GrafanaDatasource := dfltConfig.GrafanaDatasource }
  config := { config with GrafanaUser := dfltConfig.GrafanaUser }
  config := { config with GrafanaPassword := dfltConfig.GrafanaPassword }
  return config

/-- Lines 203-238 of `ParseParameters`: the assignments from the command line, in
source order. -/
def cliOverlay (c : Context) (config : Config) : Config := Id.run do
  let mut config := config
  config := { config with Metric := c.String "metric" }
  config := { config with StatsHost := c.String "statshost" }
  config := { config with StatsFrom := c.String "from" }
  config := { config with StatsTo := c.String "to" }
  config := { config with StatsLimit := c.Int "limit" }
  config := { config with StatsFilter := c.String "filter" }
  config := { config with ImportSkipDisks := c.Bool "nodisks" }
  if c.IsSet "cpus" then
    config := { config with ImportAllCpus := c.Bool "cpus" }
  config := { config with ImportBuildDashboard := c.Bool "build" }
  config := { config with ImportSkipMetrics := c.String "skip_metrics" }
  config := { config with ImportLogDatabase := c.String "log_database" }
  config := { config with ImportLogRetention := c.String "log_retention" }
  config := { config with DashboardWriteFile := c.Bool "file" }
  config := { config with ListFilter := c.String "filter" }
  config := { config with ImportForce := c.Bool "force" }
  config := { config with ListHost := c.String "host" }
  config := { config with GrafanaUser := c.String "guser" }
  config := { config with GrafanaPassword := c.String "gpassword" }
  config := { config with GrafanaAccess := c.String "gaccess" }
  config := { config with GrafanaURL := c.String "gurl" }
  config := { config with GrafanaDatasource := c.String "datasource" }
  config := { config with Debug := c.GlobalBool "debug" }
  config := { config with HMCServer := c.String "hmc" }
  config := { config with HMCUser := c.String "hmcuser" }
  config := { config with HMCPassword := c.String "hmcpass" }
  config := { config with HMCManagedSystem := c.String "managed_system" }
  config := { config with HMCManagedSystemOnly := c.Bool "managed_system-only" }
  config := { config with HMCSamples := c.Int "samples" }
  config := { config with InfluxdbServer := c.GlobalString "server" }
  config := { config with InfluxdbUser := c.GlobalString "user" }
  config := { config with InfluxdbPort := c.GlobalString "port" }
  config := { config with InfluxdbDatabase := c.GlobalString "db" }
  config := { config with InfluxdbPassword := c.GlobalString "pass" }
  config := { config with Timezone := c.GlobalString "tz" }
  return config

/-- `ParseParameters`: defaults, then the configuration file, then the command line,
then the dashboard parameters when a dashboard is to be built. -/
def ParseParameters {φ : Type} (os : OS φ) (c : Context) : Proc φ Config := do
  let mut config := InitConfig os
  let (_, loaded) ← LoadCfgFile os config
  config := loaded
  config := cliOverlay c config
  if config.ImportBuildDashboard then
    config ← AddDashboardParams os config
  return config

/-! ## A reference store

The store model of the idempotence property: every call succeeds, and a database
exists exactly when `CreateDB` has been issued for its name. Retention policies are
kept per database; the handle's database is the one a policy call applies to. -/

/-- Insert or replace the binding of `k`. -/
def upsert {κ ν : Type} [DecidableEq κ] (k : κ) (v : ν) (l : List (κ × ν)) :
    List (κ × ν) :=
  (k, v) :: l.filter (fun p => decide (p.1 ≠ k))

/-- State of the reference store. -/
structure SimStore where
  /-- the names `CreateDB` has been issued for, newest first -/
  created : List String
  /-- database ↦ name of its default retention policy, once one has been declared -/
  defaults : List (String × String)
  /-- (database, policy name) ↦ duration -/
  policies : List ((String × String) × String)
  deriving DecidableEq, Repr

/-- Name of the default retention policy of `db`; `auto` is the name of the policy
the store itself gives a database for which none was declared. -/
def SimStore.defaultPolicy (auto : String) (s : SimStore) (db : String) : String :=
  match s.defaults.lookup db with
  | some n => n
  | none => auto

/-- Declare policy `name` of `db` with `duration`, as default when `isDefault`. -/
def SimStore.putPolicy (s : SimStore) (db name duration : String) (isDefault : Bool) :
    SimStore :=
  { s with
    policies := upsert (db, name) duration s.policies
    defaults := if isDefault then upsert db name s.defaults else s.defaults }

/-- The reference store. -/
def simStore (auto : String) : Store SimStore where
  NewInfluxDB c := ({ config := c }, none)
  ExistDB s _ db := ((decide (db ∈ s.created), none), s)
  CreateDB s _ db := (none, { s with created := db :: s.created })
  GetDefaultRetentionPolicy s h := ((s.defaultPolicy auto h.config.Database, none), s)
  SetRetentionPolicy s h name duration isDefault :=
    (none, s.putPolicy h.config.Database name duration isDefault)
  UpdateRetentionPolicy s h name duration isDefault :=
    (none, s.putPolicy h.config.Database name duration isDefault)

/-! ## A reference operating system

A small in-memory file system with a toy configuration format, on which the
embedding is evaluated at concrete inputs. A document is a list of numbers, each naming one key
the file sets: `1` sets `ImportAllCpus` to `true`, `2` sets `GrafanaUser` to
`"filegrafana"`, `3` sets `GrafanaURL` to `"http://grafana.example:3000"`; any other
number is a syntax error. Marshalling writes the empty document, which sets no key. -/

/-- State of the in-memory file system. -/
structure MemFS where
  /-- the regular files and their contents -/
  files : List (String × Bytes)
  /-- the paths that cannot be opened for reading -/
  unreadable : List String
  deriving DecidableEq, Repr

/-- Apply the keys of a toy document over `base`. -/
def toyUnmarshal : Bytes → Config → Except Error Config
  | [], base => Except.ok base
  | 1 :: rest, base => toyUnmarshal rest { base with ImportAllCpus := true }
  | 2 :: rest, base => toyUnmarshal rest { base with GrafanaUser := "filegrafana" }
  | 3 :: rest, base => toyUnmarshal rest { base with GrafanaURL := "http://grafana.example:3000" }
  | _ :: _, _ => Except.error "syntax error"

/-- The reference operating system. -/
def toyOS : OS MemFS where
  Current := { Username := "nmon", HomeDir := "/home/nmon" }
  Join dir file := dir ++ "/" ++ file
  Stat fs file :=
    match fs.files.lookup file with
    | some _ => Except.ok { IsRegular := true }
    | none => Except.error "no such file or directory"
  Create fs file := (none, { fs with files := upsert file [] fs.files })
  Write fs file b := { fs with files := upsert file b fs.files }
  Open fs file :=
    if file ∈ fs.unreadable then some "permission denied"
    else match fs.files.lookup file with
      | some _ => none
      | none => some "no such file or directory"
  ReadAll fs file :=
    match fs.files.lookup file with
    | some b => (b, none)
    | none => ([], some "bad file descriptor")
  Marshal _ := ([], none)
  Unmarshal := toyUnmarshal

/-- A command line on which every flag has its zero value and none is set. -/
def zeroContext : Context where
  String _ := ""
  Int _ := 0
  Bool _ := false
  IsSet _ := false
  GlobalBool _ := false
  GlobalString _ := ""

/-- A command line that asks for a dashboard and gives Grafana parameters. -/
def buildContext : Context where
  String name := if name = "guser" then "cliuser" else if name = "gurl" then "http://cli" else ""
  Int _ := 0
  Bool name := decide (name = "build")
  IsSet name := decide (name = "build")
  GlobalBool _ := false
  GlobalString _ := ""

/-- A file system holding a configuration file in the home directory that sets
`ImportAllCpus`, `GrafanaUser` and `GrafanaURL`. -/
def homeFS : MemFS where
  files := [("/home/nmon/.nmon2influxdb.cfg", [1, 2, 3])]
  unreadable := []

/-- The same file system with the configuration file unreadable. -/
def lockedFS : MemFS where
  files := [("/home/nmon/.nmon2influxdb.cfg", [1, 2, 3])]
  unreadable := ["/home/nmon/.nmon2influxdb.cfg"]

/-- A file system without any file. -/
def emptyFS : MemFS where
  files := []
  unreadable := []

/-- A store in which nothing has been created. -/
def emptyStore : SimStore where
  created := []
  defaults := []
  policies := []

/-- The reference store with a failing existence check: `ExistDB` returns `false`
and an error. -/
def failingExistStore : Store SimStore :=
  { simStore "autogen" with
    ExistDB := fun s _ _ => ((false, some "connection refused"), s) }

/-- A store that cannot be reached: the client is created, and every call to the
store fails. -/
def downStore : Store SimStore where
  NewInfluxDB c := ({ config := c }, none)
  ExistDB s _ _ := ((false, some "connection refused"), s)
  CreateDB s _ _ := (some "connection refused", s)
  GetDefaultRetentionPolicy s _ := (("", some "connection refused"), s)
  SetRetentionPolicy s _ _ _ _ := (some "connection refused", s)
  UpdateRetentionPolicy s _ _ _ _ := (some "connection refused", s)

/-- The reference store with a failing existence check and failing policy updates. -/
def failingUpdateStore : Store SimStore :=
  { simStore "autogen" with
    ExistDB := fun s _ _ => ((false, some "connection refused"), s)
    UpdateRetentionPolicy := fun s _ _ _ _ => (some "retention policy not found", s) }

/-- The default configuration with a data retention of `"30d"`. -/
def retentionConfig : Config :=
  { InitConfig toyOS with ImportDataRetention := "30d" }

/-- What the configuration file of `homeFS` makes of the defaults. -/
def homeConfig : Config :=
  { InitConfig toyOS with
    ImportAllCpus := true
    GrafanaUser := "filegrafana"
    GrafanaURL := "http://grafana.example:3000" }

/-- The default configuration with an empty log retention. -/
def emptyLogRetentionConfig : Config :=
  { InitConfig toyOS with ImportLogRetention := "" }

/-- A store in which the log database has been created. -/
def logStore : SimStore where
  created := ["nmon2influxdb_log"]
  defaults := []
  policies := []

/-! ## Vocabulary of the properties -/

/-- The database a `GetDB` call is about: the HMC database for `dbType == "hmc"`, the
main database for every other `dbType`. -/
def roleDB (config : Config) (dbType : String) : String :=
  if dbType = "hmc" then config.HMCDatabase else config.InfluxdbDatabase

/-- The retention literal of the role. -/
def roleRetention (config : Config) (dbType : String) : String :=
  if dbType = "hmc" then config.HMCDataRetention else config.ImportDataRetention

/-- The handle `ConnectDB` hands back for database `db` when the client is created
without error. -/
def handleFor {σ : Type} (S : Store σ) (config : Config) (db : String) : InfluxDB :=
  (S.NewInfluxDB
    { Host := config.InfluxdbServer
      Port := config.InfluxdbPort
      Database := db
      User := config.InfluxdbUser
      Pass := config.InfluxdbPassword
      Debug := config.Debug }).1

/-- The error, if any, of creating the client for database `db`. -/
def connError {σ : Type} (S : Store σ) (config : Config) (db : String) : Option Error :=
  (S.NewInfluxDB
    { Host := config.InfluxdbServer
      Port := config.InfluxdbPort
      Database := db
      User := config.InfluxdbUser
      Pass := config.InfluxdbPassword
      Debug := config.Debug }).2

/-- The first step of `LoadCfgFile`: the configuration file is written from `config`
when no regular file exists at its path. -/
def bootstrap {φ : Type} (os : OS φ) (config : Config) (fs : φ) : Outcome Unit × φ :=
  if IsFile os fs (GetCfgFile os fs) = true then (Outcome.returned (), fs)
  else BuildCfgFile os config (GetCfgFile os fs) fs

/-- The calls that concern retention policies. -/
def Call.isPolicyCall : Call → Bool
  | Call.GetDefaultRetentionPolicy => true
  | Call.SetRetentionPolicy _ _ _ => true
  | Call.UpdateRetentionPolicy _ _ _ => true
  | _ => false

/-- The calls that create a database. -/
def Call.isCreateDB : Call → Bool
  | Call.CreateDB _ => true
  | _ => false

/-- Every call to the store succeeds: no operation returns an error. -/
structure Store.Succeeds {σ : Type} (S : Store σ) : Prop where
  newInfluxDB : ∀ c, (S.NewInfluxDB c).2 = none
  existDB : ∀ s h db, (S.ExistDB s h db).1.2 = none
  createDB : ∀ s h db, (S.CreateDB s h db).1 = none
  getDefaultRetentionPolicy : ∀ s h, (S.GetDefaultRetentionPolicy s h).1.2 = none
  setRetentionPolicy : ∀ s h n d b, (S.SetRetentionPolicy s h n d b).1 = none
  updateRetentionPolicy : ∀ s h n d b, (S.UpdateRetentionPolicy s h n d b).1 = none

/-- The store `S` with the error of `ExistDB` erased and its boolean kept. -/
def Store.withoutExistError {σ : Type} (S : Store σ) : Store σ :=
  { S with ExistDB := fun s h db => (((S.ExistDB s h db).1.1, none), (S.ExistDB s h db).2) }

/-! ## Lemmas -/

/-- Sequencing of `Proc`, applied to a state. -/
theorem Proc.bind_apply {ω α β : Type} (m : Proc ω α) (f : α → Proc ω β) (w : ω) :
    (m >>= f) w = Proc.bind m f w := rfl

/-- Plain return of `Proc`, applied to a state. -/
theorem Proc.pure_apply {ω α : Type} (a : α) (w : ω) :
    (Pure.pure a : Proc ω α) w = (Outcome.returned a, w) := rfl

/-- A string has positive length exactly when it is not empty. -/
theorem len_pos_iff (s : String) : 0 < len s ↔ s ≠ "" := by
  rcases s with ⟨cs⟩
  cases cs with
  | nil => simp [len, String.utf8ByteSize, String.utf8ByteSize.go]
  | cons c cs =>
    have hc : 0 < c.utf8Size := Char.utf8Size_pos c
    have hne : (String.mk (c :: cs)) ≠ "" := by
      intro h
      have := congrArg String.data h
      simp at this
    simp only [len, String.utf8ByteSize, String.utf8ByteSize.go, ne_eq, hne,
      not_false_eq_true, iff_true]
    omega

/-- The empty string has length zero. -/
theorem len_empty : len "" = 0 := by
  simp [len, String.utf8ByteSize, String.utf8ByteSize.go]

/-- Binding a key twice to the same value is binding it once. -/
theorem upsert_upsert {κ ν : Type} [DecidableEq κ] (k : κ) (v : ν) (l : List (κ × ν)) :
    upsert k v (upsert k v l) = upsert k v l := by
  simp [upsert, List.filter_filter]

/-- A key reads back the value it was bound to. -/
theorem lookup_upsert {κ ν : Type} [DecidableEq κ] [BEq κ] [LawfulBEq κ] (k : κ) (v : ν)
    (l : List (κ × ν)) : (upsert k v l).lookup k = some v := by
  simp [upsert, List.lookup]

/-- Every call to the reference store succeeds. -/
theorem simStore_succeeds (auto : String) : (simStore auto).Succeeds := by
  constructor <;> intros <;> rfl

/-- Over a store whose calls succeed, `ConnectDB` returns the handle and issues no call. -/
theorem ConnectDB_ok {σ : Type} (S : Store σ) (hok : S.Succeeds) (config : Config)
    (db : String) (w : World σ) :
    ConnectDB S config db w = (Outcome.returned (handleFor S config db), w) := by
  simp [ConnectDB, handleFor, Proc.bind_apply, Proc.bind, Proc.pure_apply, CheckError,
    hok.newInfluxDB]

/-- What `GetDB` does over a store whose calls succeed, step by step. -/
theorem GetDB_ok {σ : Type} (S : Store σ) (hok : S.Succeeds) (config : Config)
    (dbType : String) (w : World σ) :
    GetDB S config dbType w =
      (let db := roleDB config dbType
       let retention := roleRetention config dbType
       let h := handleFor S config db
       let ex := S.ExistDB w.store h db
       let w1 : World σ := { store := ex.2, calls := w.calls ++ [Call.ExistDB db] }
       let w2 : World σ :=
         if ex.1.1 = true then w1
         else { store := (S.CreateDB w1.store h db).2, calls := w1.calls ++ [Call.CreateDB db] }
       let g := S.GetDefaultRetentionPolicy w2.store h
       let w3 : World σ :=
         if retention = "" then w2
         else { store := (S.UpdateRetentionPolicy g.2 h g.1.1 retention true).2
                calls := w2.calls ++ [Call.GetDefaultRetentionPolicy,
                  Call.UpdateRetentionPolicy g.1.1 retention true] }
       (Outcome.returned h, w3)) := by
  by_cases ht : dbType = "hmc" <;>
  cases hex : (S.ExistDB w.store (handleFor S config (roleDB config dbType))
      (roleDB config dbType)).1.1 <;>
  by_cases hr : roleRetention config dbType = "" <;>
  simp [roleDB, roleRetention, ht] at hex hr <;>
  simp [GetDB, roleDB, roleRetention, Proc.bind_apply, Proc.bind, Proc.pure_apply,
    CheckError, ConnectDB_ok S hok, Store.existDB, Store.createDB,
    Store.getDefaultRetentionPolicy, Store.updateRetentionPolicy,
    hok.createDB, hok.getDefaultRetentionPolicy, hok.updateRetentionPolicy, ht, hex, hr,
    len_pos_iff, len_empty]

/-- The three ways `BuildCfgFile` ends. -/
theorem BuildCfgFile_eq {φ : Type} (os : OS φ) (config : Config) (cfgfile : String)
    (fs : φ) :
    BuildCfgFile os config cfgfile fs =
      match (os.Create fs cfgfile).1 with
      | some e => (Outcome.fatal e, (os.Create fs cfgfile).2)
      | none =>
        match (os.Marshal config).2 with
        | some e => (Outcome.fatal e, (os.Create fs cfgfile).2)
        | none =>
          (Outcome.returned (),
            os.Write (os.Create fs cfgfile).2 cfgfile (os.Marshal config).1) := by
  cases hc : (os.Create fs cfgfile).1 <;> cases hm : (os.Marshal config).2 <;>
  simp [BuildCfgFile, Proc.bind_apply, Proc.bind, Proc.pure_apply, CheckError, OS.create,
    OS.write, hc, hm]

/-- What `LoadCfgFile` does after the bootstrap, case by case. -/
theorem LoadCfgFile_eq {φ : Type} (os : OS φ) (config : Config) (fs : φ) :
    LoadCfgFile os config fs =
      match bootstrap os config fs with
      | (Outcome.fatal e, fs1) => (Outcome.fatal e, fs1)
      | (Outcome.returned _, fs1) =>
        match os.Open fs1 (GetCfgFile os fs) with
        | some _ => (Outcome.returned (GetCfgFile os fs, config), fs1)
        | none =>
          match (os.ReadAll fs1 (GetCfgFile os fs)).2 with
          | some e => (Outcome.fatal e, fs1)
          | none =>
            match os.Unmarshal (os.ReadAll fs1 (GetCfgFile os fs)).1 config with
            | Except.error e => (Outcome.fatal e, fs1)
            | Except.ok loaded => (Outcome.returned (GetCfgFile os fs, loaded), fs1) := by
  by_cases hf : IsFile os fs (GetCfgFile os fs) = true
  · cases ho : os.Open fs (GetCfgFile os fs) <;>
    cases hr : (os.ReadAll fs (GetCfgFile os fs)).2 <;>
    cases hu : os.Unmarshal (os.ReadAll fs (GetCfgFile os fs)).1 config <;>
    simp [LoadCfgFile, bootstrap, Proc.bind_apply, Proc.bind, Proc.pure_apply, CheckError,
      Proc.get, Proc.exit, hf, ho, hr, hu]
  · rw [bootstrap, if_neg hf]
    rcases hb : BuildCfgFile os config (GetCfgFile os fs) fs with ⟨o, fs1⟩
    cases o with
    | fatal e =>
      simp [LoadCfgFile, Proc.bind_apply, Proc.bind, Proc.pure_apply, Proc.get, hf, hb]
    | returned u =>
      cases ho : os.Open fs1 (GetCfgFile os fs) <;>
      cases hr : (os.ReadAll fs1 (GetCfgFile os fs)).2 <;>
      cases hu : os.Unmarshal (os.ReadAll fs1 (GetCfgFile os fs)).1 config <;>
      simp [LoadCfgFile, Proc.bind_apply, Proc.bind, Proc.pure_apply, CheckError,
        Proc.get, Proc.exit, hf, hb, ho, hr, hu]

/-- The command-line overlay, field by field. -/
theorem cliOverlay_eq (c : Context) (config : Config) :
    cliOverlay c config =
      { config with
        Metric := c.String "metric"
        StatsHost := c.String "statshost"
        StatsFrom := c.String "from"
        StatsTo := c.String "to"
        StatsLimit := c.Int "limit"
        StatsFilter := c.String "filter"
        ImportSkipDisks := c.Bool "nodisks"
        ImportAllCpus := if c.IsSet "cpus" = true then c.Bool "cpus" else config.ImportAllCpus
        ImportBuildDashboard := c.Bool "build"
        ImportSkipMetrics := c.String "skip_metrics"
        ImportLogDatabase := c.String "log_database"
        ImportLogRetention := c.String "log_retention"
        DashboardWriteFile := c.Bool "file"
        ListFilter := c.String "filter"
        ImportForce := c.Bool "force"
        ListHost := c.String "host"
        GrafanaUser := c.String "guser"
        GrafanaPassword := c.String "gpassword"
        GrafanaAccess := c.String "gaccess"
        GrafanaURL := c.String "gurl"
        GrafanaDatasource := c.String "datasource"
        Debug := c.GlobalBool "debug"
        HMCServer := c.String "hmc"
        HMCUser := c.String "hmcuser"
        HMCPassword := c.String "hmcpass"
        HMCManagedSystem := c.String "managed_system"
        HMCManagedSystemOnly := c.Bool "managed_system-only"
        HMCSamples := c.Int "samples"
        InfluxdbServer := c.GlobalString "server"
        InfluxdbUser := c.GlobalString "user"
        InfluxdbPort := c.GlobalString "port"
        InfluxdbDatabase := c.GlobalString "db"
        InfluxdbPassword := c.GlobalString "pass"
        Timezone := c.GlobalString "tz" } := by
  cases h : c.IsSet "cpus" <;> simp [cliOverlay, Id.run, h]

/-- `ParseParameters` in terms of its two loads of the configuration file. -/
theorem ParseParameters_eq {φ : Type} (os : OS φ) (c : Context) (fs : φ) :
    ParseParameters os c fs =
      match LoadCfgFile os (InitConfig os) fs with
      | (Outcome.fatal e, fs1) => (Outcome.fatal e, fs1)
      | (Outcome.returned r, fs1) =>
        if c.Bool "build" = true then
          match LoadCfgFile os (InitConfig os) fs1 with
          | (Outcome.fatal e, fs2) => (Outcome.fatal e, fs2)
          | (Outcome.returned d, fs2) =>
            (Outcome.returned
              { cliOverlay c r.2 with
                GrafanaAccess := d.2.GrafanaAccess
                GrafanaURL := d.2.GrafanaURL
                GrafanaDatasource := d.2.GrafanaDatasource
                GrafanaUser := d.2.GrafanaUser
                GrafanaPassword := d.2.GrafanaPassword }, fs2)
        else (Outcome.returned (cliOverlay c r.2), fs1) := by
  have hb : ∀ base, (cliOverlay c base).ImportBuildDashboard = c.Bool "build" := by
    intro base
    rw [cliOverlay_eq]
  rcases h1 : LoadCfgFile os (InitConfig os) fs with ⟨o, fs1⟩
  cases o with
  | fatal e => simp [ParseParameters, Proc.bind_apply, Proc.bind, h1]
  | returned r =>
    cases hbuild : c.Bool "build"
    · simp [ParseParameters, Proc.bind_apply, Proc.bind, Proc.pure_apply, h1, hb, hbuild]
    · rcases h2 : LoadCfgFile os (InitConfig os) fs1 with ⟨o2, fs2⟩
      cases o2 with
      | fatal e =>
        simp [ParseParameters, AddDashboardParams, Proc.bind_apply, Proc.bind,
          Proc.pure_apply, h1, h2, hb, hbuild]
      | returned d =>
        simp [ParseParameters, AddDashboardParams, Proc.bind_apply, Proc.bind,
          Proc.pure_apply, h1, h2, hb, hbuild]

/-- `ParseParameters` when no dashboard is asked for. -/
theorem ParseParameters_without_build {φ : Type} (os : OS φ) (c : Context)
    (fs fs1 : φ) (p1 : String) (base : Config)
    (hbuild : c.Bool "build" = false)
    (h1 : LoadCfgFile os (InitConfig os) fs = (Outcome.returned (p1, base), fs1)) :
    ParseParameters os c fs = (Outcome.returned (cliOverlay c base), fs1) := by
  rw [ParseParameters_eq, h1]
  simp [hbuild]

/-- `ParseParameters` when a dashboard is asked for and both loads return. -/
theorem ParseParameters_with_build {φ : Type} (os : OS φ) (c : Context)
    (fs fs1 fs2 : φ) (p1 p2 : String) (base d : Config)
    (hbuild : c.Bool "build" = true)
    (h1 : LoadCfgFile os (InitConfig os) fs = (Outcome.returned (p1, base), fs1))
    (h2 : LoadCfgFile os (InitConfig os) fs1 = (Outcome.returned (p2, d), fs2)) :
    ParseParameters os c fs =
      (Outcome.returned
        { cliOverlay c base with
          GrafanaAccess := d.GrafanaAccess
          GrafanaURL := d.GrafanaURL
          GrafanaDatasource := d.GrafanaDatasource
          GrafanaUser := d.GrafanaUser
          GrafanaPassword := d.GrafanaPassword }, fs2) := by
  rw [ParseParameters_eq, h1]
  simp only [hbuild, if_true, h2]

/-- `ConnectDB` over any store: the error of the client ends the run, otherwise the
handle is returned; no call is issued. -/
theorem ConnectDB_eq {σ : Type} (S : Store σ) (config : Config) (db : String)
    (w : World σ) :
    ConnectDB S config db w =
      match connError S config db with
      | some e => (Outcome.fatal e, w)
      | none => (Outcome.returned (handleFor S config db), w) := by
  cases hn : connError S config db <;>
  simp only [connError] at hn <;>
  simp [ConnectDB, handleFor, Proc.bind_apply, Proc.bind, Proc.pure_apply, CheckError, hn]

/-- `GetDB` over any store, step by step. The error of `ExistDB` occurs nowhere. -/
theorem GetDB_eq {σ : Type} (S : Store σ) (config : Config) (dbType : String)
    (w : World σ) :
    GetDB S config dbType w =
      (let db := roleDB config dbType
       let retention := roleRetention config dbType
       let h := handleFor S config db
       let ex := S.ExistDB w.store h db
       let w1 : World σ := { store := ex.2, calls := w.calls ++ [Call.ExistDB db] }
       let cr := S.CreateDB ex.2 h db
       let wc : World σ := { store := cr.2, calls := w1.calls ++ [Call.CreateDB db] }
       let w2 : World σ := if ex.1.1 = true then w1 else wc
       let g := S.GetDefaultRetentionPolicy w2.store h
       let w3 : World σ :=
         { store := g.2, calls := w2.calls ++ [Call.GetDefaultRetentionPolicy] }
       let u := S.UpdateRetentionPolicy g.2 h g.1.1 retention true
       let w4 : World σ :=
         { store := u.2, calls := w3.calls ++ [Call.UpdateRetentionPolicy g.1.1 retention true] }
       match connError S config db with
       | some e => (Outcome.fatal e, w)
       | none =>
         match (if ex.1.1 = true then none else cr.1) with
         | some e => (Outcome.fatal e, wc)
         | none =>
           if retention = "" then (Outcome.returned h, w2)
           else
             match g.1.2 with
             | some e => (Outcome.fatal e, w3)
             | none =>
               match u.1 with
               | some e => (Outcome.fatal e, w4)
               | none => (Outcome.returned h, w4)) := by
  by_cases ht : dbType = "hmc"
  · subst ht
    cases hn : connError S config config.HMCDatabase with
    | some e =>
      simp [GetDB, roleDB, Proc.bind_apply, Proc.bind, Proc.pure_apply, ConnectDB_eq, hn]
    | none =>
      cases hex : (S.ExistDB w.store (handleFor S config config.HMCDatabase)
          config.HMCDatabase).1.1 with
      | false =>
        cases hc : (S.CreateDB (S.ExistDB w.store (handleFor S config config.HMCDatabase)
            config.HMCDatabase).2 (handleFor S config config.HMCDatabase) config.HMCDatabase).1
            with
        | some e =>
          simp [GetDB, roleDB, roleRetention, Proc.bind_apply, Proc.bind, Proc.pure_apply,
            CheckError, ConnectDB_eq, Store.existDB, Store.createDB, hn, hex, hc]
        | none =>
          by_cases hr : config.HMCDataRetention = ""
          · simp [GetDB, roleDB, roleRetention, Proc.bind_apply, Proc.bind, Proc.pure_apply,
              CheckError, ConnectDB_eq, Store.existDB, Store.createDB, hn, hex, hc, hr, len_empty]
          · cases hg : (S.GetDefaultRetentionPolicy (S.CreateDB (S.ExistDB w.store (handleFor S
              config config.HMCDatabase) config.HMCDatabase).2 (handleFor S config
              config.HMCDatabase) config.HMCDatabase).2 (handleFor S config
              config.HMCDatabase)).1.2 with
            | some e =>
              simp [GetDB, roleDB, roleRetention, Proc.bind_apply, Proc.bind, Proc.pure_apply,
                CheckError, ConnectDB_eq, Store.existDB, Store.createDB,
                Store.getDefaultRetentionPolicy, hn, hex, hc, hr, hg, len_pos_iff]
            | none =>
              cases hu : (S.UpdateRetentionPolicy (S.GetDefaultRetentionPolicy (S.CreateDB
                  (S.ExistDB w.store (handleFor S config config.HMCDatabase) config.HMCDatabase).2
                  (handleFor S config config.HMCDatabase) config.HMCDatabase).2 (handleFor S
                  config config.HMCDatabase)).2 (handleFor S config config.HMCDatabase)
                  (S.GetDefaultRetentionPolicy (S.CreateDB (S.ExistDB w.store (handleFor S config
                  config.HMCDatabase) config.HMCDatabase).2 (handleFor S config
                  config.HMCDatabase) config.HMCDatabase).2 (handleFor S config
                  config.HMCDatabase)).1.1 config.HMCDataRetention true).1 <;>
              simp [GetDB, roleDB, roleRetention, Proc.bind_apply, Proc.bind, Proc.pure_apply,
                CheckError, ConnectDB_eq, Store.existDB, Store.createDB,
                Store.getDefaultRetentionPolicy, Store.updateRetentionPolicy,
                hn, hex, hc, hr, hg, hu, len_pos_iff]
      | true =>
        by_cases hr : config.HMCDataRetention = ""
        · simp [GetDB, roleDB, roleRetention, Proc.bind_apply, Proc.bind, Proc.pure_apply,
            CheckError, ConnectDB_eq, Store.existDB, Store.createDB, hn, hex, hr, len_empty]
        · cases hg : (S.GetDefaultRetentionPolicy (S.ExistDB w.store (handleFor S config
            config.HMCDatabase) config.HMCDatabase).2 (handleFor S config config.HMCDatabase)).1.2
            with
          | some e =>
            simp [GetDB, roleDB, roleRetention, Proc.bind_apply, Proc.bind, Proc.pure_apply,
              CheckError, ConnectDB_eq, Store.existDB, Store.createDB,
              Store.getDefaultRetentionPolicy, hn, hex, hr, hg, len_pos_iff]
          | none =>
            cases hu : (S.UpdateRetentionPolicy (S.GetDefaultRetentionPolicy (S.ExistDB w.store
                (handleFor S config config.HMCDatabase) config.HMCDatabase).2 (handleFor S config
                config.HMCDatabase)).2 (handleFor S config config.HMCDatabase)
                (S.GetDefaultRetentionPolicy (S.ExistDB w.store (handleFor S config
                config.HMCDatabase) config.HMCDatabase).2 (handleFor S config
                config.HMCDatabase)).1.1 config.HMCDataRetention true).1 <;>
            simp [GetDB, roleDB, roleRetention, Proc.bind_apply, Proc.bind, Proc.pure_apply,
              CheckError, ConnectDB_eq, Store.existDB, Store.createDB,
              Store.getDefaultRetentionPolicy, Store.updateRetentionPolicy,
              hn, hex, hr, hg, hu, len_pos_iff]
  · cases hn : connError S config config.InfluxdbDatabase with
    | some e =>
      simp [GetDB, roleDB, Proc.bind_apply, Proc.bind, Proc.pure_apply, ConnectDB_eq, ht, hn]
    | none =>
      cases hex : (S.ExistDB w.store (handleFor S config config.InfluxdbDatabase)
          config.InfluxdbDatabase).1.1 with
      | false =>
        cases hc : (S.CreateDB (S.ExistDB w.store (handleFor S config config.InfluxdbDatabase)
            config.InfluxdbDatabase).2 (handleFor S config config.InfluxdbDatabase)
            config.InfluxdbDatabase).1 with
        | some e =>
          simp [GetDB, roleDB, roleRetention, Proc.bind_apply, Proc.bind, Proc.pure_apply,
            CheckError, ConnectDB_eq, Store.existDB, Store.createDB, ht, hn, hex, hc]
        | none =>
          by_cases hr : config.ImportDataRetention = ""
          · simp [GetDB, roleDB, roleRetention, Proc.bind_apply, Proc.bind, Proc.pure_apply,
              CheckError, ConnectDB_eq, Store.existDB, Store.createDB, ht, hn, hex, hc, hr,
                  len_empty]
          · cases hg : (S.GetDefaultRetentionPolicy (S.CreateDB (S.ExistDB w.store (handleFor S
              config config.InfluxdbDatabase) config.InfluxdbDatabase).2 (handleFor S config
              config.InfluxdbDatabase) config.InfluxdbDatabase).2 (handleFor S config
              config.InfluxdbDatabase)).1.2 with
            | some e =>
              simp [GetDB, roleDB, roleRetention, Proc.bind_apply, Proc.bind, Proc.pure_apply,
                CheckError, ConnectDB_eq, Store.existDB, Store.createDB,
                Store.getDefaultRetentionPolicy, ht, hn, hex, hc, hr, hg, len_pos_iff]
            | none =>
              cases hu : (S.UpdateRetentionPolicy (S.GetDefaultRetentionPolicy (S.CreateDB
                  (S.ExistDB w.store (handleFor S config config.InfluxdbDatabase)
                  config.InfluxdbDatabase).2 (handleFor S config config.InfluxdbDatabase)
                  config.InfluxdbDatabase).2 (handleFor S config config.InfluxdbDatabase)).2
                  (handleFor S config config.InfluxdbDatabase) (S.GetDefaultRetentionPolicy
                  (S.CreateDB (S.ExistDB w.store (handleFor S config config.InfluxdbDatabase)
                  config.InfluxdbDatabase).2 (handleFor S config config.InfluxdbDatabase)
                  config.InfluxdbDatabase).2 (handleFor S config config.InfluxdbDatabase)).1.1
                  config.ImportDataRetention true).1 <;>
              simp [GetDB, roleDB, roleRetention, Proc.bind_apply, Proc.bind, Proc.pure_apply,
                CheckError, ConnectDB_eq, Store.existDB, Store.createDB,
                Store.getDefaultRetentionPolicy, Store.updateRetentionPolicy,
                ht, hn, hex, hc, hr, hg, hu, len_pos_iff]
      | true =>
        by_cases hr : config.ImportDataRetention = ""
        · simp [GetDB, roleDB, roleRetention, Proc.bind_apply, Proc.bind, Proc.pure_apply,
            CheckError, ConnectDB_eq, Store.existDB, Store.createDB, ht, hn, hex, hr, len_empty]
        · cases hg : (S.GetDefaultRetentionPolicy (S.ExistDB w.store (handleFor S config
            config.InfluxdbDatabase) config.InfluxdbDatabase).2 (handleFor S config
            config.InfluxdbDatabase)).1.2 with
          | some e =>
            simp [GetDB, roleDB, roleRetention, Proc.bind_apply, Proc.bind, Proc.pure_apply,
              CheckError, ConnectDB_eq, Store.existDB, Store.createDB,
              Store.getDefaultRetentionPolicy, ht, hn, hex, hr, hg, len_pos_iff]
          | none =>
            cases hu : (S.UpdateRetentionPolicy (S.GetDefaultRetentionPolicy (S.ExistDB w.store
                (handleFor S config config.InfluxdbDatabase) config.InfluxdbDatabase).2 (handleFor
                S config config.InfluxdbDatabase)).2 (handleFor S config config.InfluxdbDatabase)
                (S.GetDefaultRetentionPolicy (S.ExistDB w.store (handleFor S config
                config.InfluxdbDatabase) config.InfluxdbDatabase).2 (handleFor S config
                config.InfluxdbDatabase)).1.1 config.ImportDataRetention true).1 <;>
            simp [GetDB, roleDB, roleRetention, Proc.bind_apply, Proc.bind, Proc.pure_apply,
              CheckError, ConnectDB_eq, Store.existDB, Store.createDB,
              Store.getDefaultRetentionPolicy, Store.updateRetentionPolicy,
              ht, hn, hex, hr, hg, hu, len_pos_iff]

/-- `GetLogDB` over any store, step by step. The error of `ExistDB` occurs nowhere. -/
theorem GetLogDB_eq {σ : Type} (S : Store σ) (config : Config) (w : World σ) :
    GetLogDB S config w =
      (let db := config.ImportLogDatabase
       let retention := config.ImportLogRetention
       let h := handleFor S config db
       let ex := S.ExistDB w.store h db
       let w1 : World σ := { store := ex.2, calls := w.calls ++ [Call.ExistDB db] }
       let cr := S.CreateDB ex.2 h db
       let wc : World σ := { store := cr.2, calls := w1.calls ++ [Call.CreateDB db] }
       let st := S.SetRetentionPolicy cr.2 h "log_retention" retention true
       let ws : World σ :=
         { store := st.2
           calls := wc.calls ++ [Call.SetRetentionPolicy "log_retention" retention true] }
       let up := S.UpdateRetentionPolicy ex.2 h "log_retention" retention true
       let wu : World σ :=
         { store := up.2
           calls := w1.calls ++ [Call.UpdateRetentionPolicy "log_retention" retention true] }
       match connError S config db with
       | some e => (Outcome.fatal e, w)
       | none =>
         if ex.1.1 = true then
           match up.1 with
           | some e => (Outcome.fatal e, wu)
           | none => (Outcome.returned h, wu)
         else
           match cr.1 with
           | some e => (Outcome.fatal e, wc)
           | none =>
             match st.1 with
             | some e => (Outcome.fatal e, ws)
             | none => (Outcome.returned h, ws)) := by
  cases hn : connError S config config.ImportLogDatabase with
  | some e =>
    simp [GetLogDB, Proc.bind_apply, Proc.bind, Proc.pure_apply, ConnectDB_eq, hn]
  | none =>
    cases hex : (S.ExistDB w.store (handleFor S config config.ImportLogDatabase)
        config.ImportLogDatabase).1.1 with
    | true =>
      cases hu : (S.UpdateRetentionPolicy
          (S.ExistDB w.store (handleFor S config config.ImportLogDatabase)
            config.ImportLogDatabase).2
          (handleFor S config config.ImportLogDatabase)
          "log_retention" config.ImportLogRetention true).1 <;>
      simp [GetLogDB, Proc.bind_apply, Proc.bind, Proc.pure_apply, CheckError,
        ConnectDB_eq, Store.existDB, Store.updateRetentionPolicy, hn, hex, hu]
    | false =>
      cases hc : (S.CreateDB
          (S.ExistDB w.store (handleFor S config config.ImportLogDatabase)
            config.ImportLogDatabase).2
          (handleFor S config config.ImportLogDatabase) config.ImportLogDatabase).1 with
      | some e =>
        simp [GetLogDB, Proc.bind_apply, Proc.bind, Proc.pure_apply, CheckError,
          ConnectDB_eq, Store.existDB, Store.createDB, hn, hex, hc]
      | none =>
        cases hs : (S.SetRetentionPolicy
            (S.CreateDB
              (S.ExistDB w.store (handleFor S config config.ImportLogDatabase)
                config.ImportLogDatabase).2
              (handleFor S config config.ImportLogDatabase) config.ImportLogDatabase).2
            (handleFor S config config.ImportLogDatabase)
            "log_retention" config.ImportLogRetention true).1 <;>
        simp [GetLogDB, Proc.bind_apply, Proc.bind, Proc.pure_apply, CheckError,
          ConnectDB_eq, Store.existDB, Store.createDB, Store.setRetentionPolicy,
          hn, hex, hc, hs]

/-- `IsFile` is false whenever the stat of the path fails, and true exactly when the
stat succeeds and the mode is that of a regular file. -/
theorem IsFile_iff {φ : Type} (os : OS φ) (fs : φ) (file : String) :
    (∀ e, os.Stat fs file = Except.error e → IsFile os fs file = false) ∧
    (IsFile os fs file = true ↔
      ∃ stat, os.Stat fs file = Except.ok stat ∧ stat.IsRegular = true) := by
  unfold IsFile
  cases h : os.Stat fs file with
  | error e => simp
  | ok stat => cases hr : stat.IsRegular <;> simp [hr]

/-! ## Theorems -/

/-- C1. Log role over a store whose calls succeed: `GetLogDB` returns the handle; if
`ExistDB` reports the log database absent, the calls issued are `ExistDB`, `CreateDB`
and `SetRetentionPolicy("log_retention", ImportLogRetention, true)`, in this order and
no other; if it reports it present, they are `ExistDB` and
`UpdateRetentionPolicy("log_retention", ImportLogRetention, true)` and no other. The
configuration is arbitrary, an empty `ImportLogRetention` included. -/
theorem GetLogDB_calls {σ : Type} (S : Store σ) (hok : S.Succeeds) (config : Config)
    (w : World σ) :
    (GetLogDB S config w).1
        = Outcome.returned (handleFor S config config.ImportLogDatabase) ∧
      ((S.ExistDB w.store (handleFor S config config.ImportLogDatabase)
            config.ImportLogDatabase).1.1 = false →
        (GetLogDB S config w).2.calls = w.calls ++
          [Call.ExistDB config.ImportLogDatabase, Call.CreateDB config.ImportLogDatabase,
           Call.SetRetentionPolicy "log_retention" config.ImportLogRetention true]) ∧
      ((S.ExistDB w.store (handleFor S config config.ImportLogDatabase)
            config.ImportLogDatabase).1.1 = true →
        (GetLogDB S config w).2.calls = w.calls ++
          [Call.ExistDB config.ImportLogDatabase,
           Call.UpdateRetentionPolicy "log_retention" config.ImportLogRetention true]) := by
  cases hex : (S.ExistDB w.store (handleFor S config config.ImportLogDatabase)
      config.ImportLogDatabase).1.1 <;>
  simp [GetLogDB, Proc.bind_apply, Proc.bind, Proc.pure_apply, CheckError,
    ConnectDB_ok S hok,
    Store.existDB, Store.createDB, Store.setRetentionPolicy, Store.updateRetentionPolicy,
    hok.createDB, hok.setRetentionPolicy, hok.updateRetentionPolicy, hex]

/-- Witness of C1: over the reference store, with an empty log retention, on an absent
and on a present log database. -/
theorem GetLogDB_calls_witness :
    (simStore "autogen").Succeeds ∧
    (GetLogDB (simStore "autogen") emptyLogRetentionConfig
        { store := emptyStore, calls := [] }).2.calls
      = [Call.ExistDB "nmon2influxdb_log", Call.CreateDB "nmon2influxdb_log",
         Call.SetRetentionPolicy "log_retention" "" true] ∧
    (GetLogDB (simStore "autogen") emptyLogRetentionConfig
        { store := logStore, calls := [] }).2.calls
      = [Call.ExistDB "nmon2influxdb_log",
         Call.UpdateRetentionPolicy "log_retention" "" true] :=
  ⟨simStore_succeeds "autogen",
   (GetLogDB_calls (simStore "autogen") (simStore_succeeds "autogen")
      emptyLogRetentionConfig { store := emptyStore, calls := [] }).2.1 (by decide),
   (GetLogDB_calls (simStore "autogen") (simStore_succeeds "autogen")
      emptyLogRetentionConfig { store := logStore, calls := [] }).2.2 (by decide)⟩

/-- C2. Main and secondary roles over a store whose calls succeed: `GetDB` returns the
handle and issues `ExistDB`, then `CreateDB` if the database is reported absent, then,
if and only if the retention literal of the role is not empty,
`GetDefaultRetentionPolicy` followed by `UpdateRetentionPolicy(n, literal, true)` with
`n` the name the lookup returned. The retention-policy calls are none for an empty
literal and these two otherwise, whether the database existed or was created;
`SetRetentionPolicy` is never among them. -/
theorem GetDB_policy_calls {σ : Type} (S : Store σ) (hok : S.Succeeds) (config : Config)
    (dbType : String) (s : σ) :
    let db := roleDB config dbType
    let retention := roleRetention config dbType
    let h := handleFor S config db
    let ex := S.ExistDB s h db
    let s1 := if ex.1.1 = true then ex.2 else (S.CreateDB ex.2 h db).2
    let n := (S.GetDefaultRetentionPolicy s1 h).1.1
    let r := GetDB S config dbType { store := s, calls := [] }
    r.1 = Outcome.returned h ∧
    r.2.calls = [Call.ExistDB db] ++ (if ex.1.1 = true then [] else [Call.CreateDB db])
      ++ (if retention = "" then []
          else [Call.GetDefaultRetentionPolicy, Call.UpdateRetentionPolicy n retention true]) ∧
    (retention = "" → r.2.calls.filter Call.isPolicyCall = []) ∧
    (retention ≠ "" → r.2.calls.filter Call.isPolicyCall =
      [Call.GetDefaultRetentionPolicy, Call.UpdateRetentionPolicy n retention true]) := by
  intro db retention h ex s1 n r
  have hr : r = GetDB S config dbType { store := s, calls := [] } := rfl
  rw [GetDB_ok S hok] at hr
  cases hex : ex.1.1 <;> by_cases hret : retention = "" <;>
  simp only [db, retention, h, ex, s1, n] at hex hret ⊢ <;>
  simp [hr, hex, hret, Call.isPolicyCall]

/-- Witness of C2: the main role with a retention of `"30d"` over the reference
store. -/
theorem GetDB_policy_calls_witness :
    (simStore "autogen").Succeeds ∧
    (GetDB (simStore "autogen") retentionConfig "nmon"
        { store := emptyStore, calls := [] }).2.calls.filter Call.isPolicyCall
      = [Call.GetDefaultRetentionPolicy, Call.UpdateRetentionPolicy "autogen" "30d" true] :=
  ⟨simStore_succeeds "autogen",
   (GetDB_policy_calls (simStore "autogen") (simStore_succeeds "autogen")
      retentionConfig "nmon" emptyStore).2.2.2 (by decide)⟩

/-- C3. Idempotence for the main role over the reference store: with a non-empty
`ImportDataRetention` and the main database absent at first, two consecutive `GetDB`
calls return the handle; the first issues `ExistDB`, `CreateDB`,
`GetDefaultRetentionPolicy` and `UpdateRetentionPolicy(n, ImportDataRetention, true)`,
the second the same without `CreateDB`, so one `CreateDB` in total; after the first
call `n` is the default policy and its duration is `ImportDataRetention`; and the
store after the second call is the store after the first. -/
theorem GetDB_main_idempotent (auto : String) (config : Config) (dbType : String)
    (s : SimStore) (hmain : dbType ≠ "hmc") (hret : config.ImportDataRetention ≠ "")
    (habs : config.InfluxdbDatabase ∉ s.created) :
    let S := simStore auto
    let db := config.InfluxdbDatabase
    let retention := config.ImportDataRetention
    let h := handleFor S config db
    let n := s.defaultPolicy auto db
    let r1 := GetDB S config dbType { store := s, calls := [] }
    let r2 := GetDB S config dbType { store := r1.2.store, calls := [] }
    r1.1 = Outcome.returned h ∧ r2.1 = Outcome.returned h ∧
    r1.2.calls = [Call.ExistDB db, Call.CreateDB db, Call.GetDefaultRetentionPolicy,
      Call.UpdateRetentionPolicy n retention true] ∧
    r2.2.calls = [Call.ExistDB db, Call.GetDefaultRetentionPolicy,
      Call.UpdateRetentionPolicy n retention true] ∧
    (r1.2.calls ++ r2.2.calls).countP Call.isCreateDB = 1 ∧
    r1.2.store.defaultPolicy auto db = n ∧
    r1.2.store.policies.lookup (db, n) = some retention ∧
    r2.2.store = r1.2.store := by
  intro S db retention h n r1 r2
  have h1 : r1 = GetDB S config dbType { store := s, calls := [] } := rfl
  have h2 : r2 = GetDB S config dbType { store := r1.2.store, calls := [] } := rfl
  rw [GetDB_ok S (simStore_succeeds auto)] at h1 h2
  have e1 : r1 = (Outcome.returned h,
      { store := ({ s with created := db :: s.created } : SimStore).putPolicy db n retention true
        calls := [Call.ExistDB db, Call.CreateDB db, Call.GetDefaultRetentionPolicy,
          Call.UpdateRetentionPolicy n retention true] }) := by
    rw [h1]
    simp [roleDB, roleRetention, hmain, hret, habs, S, simStore, h, handleFor, db, n,
      retention, SimStore.defaultPolicy]
  have hn : (r1.2.store).defaultPolicy auto db = n := by
    rw [e1]
    simp [SimStore.putPolicy, SimStore.defaultPolicy, lookup_upsert]
  have e2 : r2 = (Outcome.returned h,
      { store := r1.2.store
        calls := [Call.ExistDB db, Call.GetDefaultRetentionPolicy,
          Call.UpdateRetentionPolicy n retention true] }) := by
    rw [h2]
    have hex : db ∈ r1.2.store.created := by rw [e1]; simp [SimStore.putPolicy]
    have hput : r1.2.store.putPolicy db n retention true = r1.2.store := by
      rw [e1]
      simp [SimStore.putPolicy, upsert_upsert]
    simp [roleDB, roleRetention, hmain, hret, S, simStore, h, handleFor]
    refine ⟨?_, ?_⟩
    · simp only [db] at hex hn hput
      simp [hex, hn, hput, retention]
    · simp only [db] at hex hn hput
      simp [hex, hn, hput, retention]
  refine ⟨by rw [e1], by rw [e2], by rw [e1], by rw [e2], ?_, hn, ?_, by rw [e2]⟩
  · rw [e1, e2]
    simp [List.countP_cons, Call.isCreateDB]
  · rw [e1]
    simp [SimStore.putPolicy, lookup_upsert]

/-- Witness of C3: two consecutive calls for the main role from the empty store. -/
theorem GetDB_main_idempotent_witness :
    "nmon" ≠ "hmc" ∧ retentionConfig.ImportDataRetention ≠ "" ∧
    retentionConfig.InfluxdbDatabase ∉ emptyStore.created ∧
    (GetDB (simStore "autogen") retentionConfig "nmon"
      { store := (GetDB (simStore "autogen") retentionConfig "nmon"
          { store := emptyStore, calls := [] }).2.store, calls := [] }).2.store
      = (GetDB (simStore "autogen") retentionConfig "nmon"
          { store := emptyStore, calls := [] }).2.store :=
  ⟨by decide, by decide, by decide,
   (GetDB_main_idempotent "autogen" retentionConfig "nmon" emptyStore
      (by decide) (by decide) (by decide)).2.2.2.2.2.2.2⟩

/-- C4. Dashboard quirk: when the `build` flag is true and both loads of the
configuration file return, `ParseParameters` returns a configuration whose five
Grafana fields are those of the defaults-and-file configuration `d` that
`AddDashboardParams` loads, whatever the command line gives for them, and whose other
fields are those of the configuration as the command-line overlay left it. -/
theorem ParseParameters_dashboard_quirk {φ : Type} (os : OS φ) (c : Context)
    (fs fs1 fs2 : φ) (p1 p2 : String) (base d : Config)
    (hbuild : c.Bool "build" = true)
    (h1 : LoadCfgFile os (InitConfig os) fs = (Outcome.returned (p1, base), fs1))
    (h2 : LoadCfgFile os (InitConfig os) fs1 = (Outcome.returned (p2, d), fs2)) :
    ∃ cfg, ParseParameters os c fs = (Outcome.returned cfg, fs2) ∧
      cfg.GrafanaAccess = d.GrafanaAccess ∧
      cfg.GrafanaURL = d.GrafanaURL ∧
      cfg.GrafanaDatasource = d.GrafanaDatasource ∧
      cfg.GrafanaUser = d.GrafanaUser ∧
      cfg.GrafanaPassword = d.GrafanaPassword ∧
      { cfg with
        GrafanaAccess := (cliOverlay c base).GrafanaAccess
        GrafanaURL := (cliOverlay c base).GrafanaURL
        GrafanaDatasource := (cliOverlay c base).GrafanaDatasource
        GrafanaUser := (cliOverlay c base).GrafanaUser
        GrafanaPassword := (cliOverlay c base).GrafanaPassword } = cliOverlay c base := by
  exact ⟨_, ParseParameters_with_build os c fs fs1 fs2 p1 p2 base d hbuild h1 h2,
    rfl, rfl, rfl, rfl, rfl, rfl⟩

/-- Witness of C4: the command line asks for a dashboard and gives a Grafana user and
URL; the configuration file of `homeFS` sets both. -/
theorem ParseParameters_dashboard_quirk_witness :
    buildContext.Bool "build" = true ∧
    buildContext.String "guser" = "cliuser" ∧
    LoadCfgFile toyOS (InitConfig toyOS) homeFS
      = (Outcome.returned ("/home/nmon/.nmon2influxdb.cfg", homeConfig), homeFS) ∧
    ∃ cfg, ParseParameters toyOS buildContext homeFS = (Outcome.returned cfg, homeFS) ∧
      cfg.GrafanaAccess = homeConfig.GrafanaAccess ∧
      cfg.GrafanaURL = homeConfig.GrafanaURL ∧
      cfg.GrafanaDatasource = homeConfig.GrafanaDatasource ∧
      cfg.GrafanaUser = homeConfig.GrafanaUser ∧
      cfg.GrafanaPassword = homeConfig.GrafanaPassword ∧
      { cfg with
        GrafanaAccess := (cliOverlay buildContext homeConfig).GrafanaAccess
        GrafanaURL := (cliOverlay buildContext homeConfig).GrafanaURL
        GrafanaDatasource := (cliOverlay buildContext homeConfig).GrafanaDatasource
        GrafanaUser := (cliOverlay buildContext homeConfig).GrafanaUser
        GrafanaPassword := (cliOverlay buildContext homeConfig).GrafanaPassword }
        = cliOverlay buildContext homeConfig :=
  ⟨by decide, by decide, by decide,
   ParseParameters_dashboard_quirk toyOS buildContext homeFS homeFS homeFS
     "/home/nmon/.nmon2influxdb.cfg" "/home/nmon/.nmon2influxdb.cfg" homeConfig homeConfig
     (by decide) (by decide) (by decide)⟩

/-- C5. Set-if-provided: when the loads of the configuration file return,
`ParseParameters` returns a configuration whose `ImportAllCpus` is that of `base`,
the defaults-and-file configuration, if the `cpus` flag is not set, whatever
`Bool("cpus")` is, and is `Bool("cpus")` if the flag is set. -/
theorem ParseParameters_cpus_set_if_provided {φ : Type} (os : OS φ) (c : Context)
    (fs fs1 : φ) (p1 : String) (base : Config)
    (h1 : LoadCfgFile os (InitConfig os) fs = (Outcome.returned (p1, base), fs1))
    (h2 : c.Bool "build" = true →
      ∃ p2 d fs2, LoadCfgFile os (InitConfig os) fs1 = (Outcome.returned (p2, d), fs2)) :
    ∃ cfg fs2, ParseParameters os c fs = (Outcome.returned cfg, fs2) ∧
      (c.IsSet "cpus" = false → cfg.ImportAllCpus = base.ImportAllCpus) ∧
      (c.IsSet "cpus" = true → cfg.ImportAllCpus = c.Bool "cpus") := by
  cases hbuild : c.Bool "build"
  · refine ⟨_, _, ParseParameters_without_build os c fs fs1 p1 base hbuild h1, ?_, ?_⟩ <;>
      intro hset <;> simp [cliOverlay_eq, hset]
  · obtain ⟨p2, d, fs2, hd⟩ := h2 hbuild
    refine ⟨_, _, ParseParameters_with_build os c fs fs1 fs2 p1 p2 base d hbuild h1 hd,
      ?_, ?_⟩ <;> intro hset <;> simp [cliOverlay_eq, hset]

/-- Witness of C5: the `cpus` flag is not set and reads false, the configuration file
sets `ImportAllCpus` to true. -/
theorem ParseParameters_cpus_set_if_provided_witness :
    zeroContext.IsSet "cpus" = false ∧ zeroContext.Bool "cpus" = false ∧
    homeConfig.ImportAllCpus = true ∧
    LoadCfgFile toyOS (InitConfig toyOS) homeFS
      = (Outcome.returned ("/home/nmon/.nmon2influxdb.cfg", homeConfig), homeFS) ∧
    ∃ cfg fs2, ParseParameters toyOS zeroContext homeFS = (Outcome.returned cfg, fs2) ∧
      (zeroContext.IsSet "cpus" = false → cfg.ImportAllCpus = homeConfig.ImportAllCpus) ∧
      (zeroContext.IsSet "cpus" = true → cfg.ImportAllCpus = zeroContext.Bool "cpus") :=
  ⟨by decide, by decide, by decide, by decide,
   ParseParameters_cpus_set_if_provided toyOS zeroContext homeFS homeFS
     "/home/nmon/.nmon2influxdb.cfg" homeConfig (by decide)
     (fun h => absurd h (by decide))⟩

/-- C6. Command-line precedence: when the loads of the configuration file return,
`ParseParameters` returns a configuration in which every field that has a flag and
is not a dashboard field holds what the command line returns for the flag, whatever
the file made of the field. -/
theorem ParseParameters_cli_precedence {φ : Type} (os : OS φ) (c : Context)
    (fs fs1 : φ) (p1 : String) (base : Config)
    (h1 : LoadCfgFile os (InitConfig os) fs = (Outcome.returned (p1, base), fs1))
    (h2 : c.Bool "build" = true →
      ∃ p2 d fs2, LoadCfgFile os (InitConfig os) fs1 = (Outcome.returned (p2, d), fs2)) :
    ∃ cfg fs2, ParseParameters os c fs = (Outcome.returned cfg, fs2) ∧
      cfg.Metric = c.String "metric" ∧
      cfg.StatsHost = c.String "statshost" ∧
      cfg.StatsFrom = c.String "from" ∧
      cfg.StatsTo = c.String "to" ∧
      cfg.StatsLimit = c.Int "limit" ∧
      cfg.StatsFilter = c.String "filter" ∧
      cfg.ListFilter = c.String "filter" ∧
      cfg.ImportSkipDisks = c.Bool "nodisks" ∧
      cfg.ImportBuildDashboard = c.Bool "build" ∧
      cfg.ImportSkipMetrics = c.String "skip_metrics" ∧
      cfg.ImportLogDatabase = c.String "log_database" ∧
      cfg.ImportLogRetention = c.String "log_retention" ∧
      cfg.DashboardWriteFile = c.Bool "file" ∧
      cfg.ImportForce = c.Bool "force" ∧
      cfg.ListHost = c.String "host" ∧
      cfg.Debug = c.GlobalBool "debug" ∧
      cfg.HMCServer = c.String "hmc" ∧
      cfg.HMCUser = c.String "hmcuser" ∧
      cfg.HMCPassword = c.String "hmcpass" ∧
      cfg.HMCManagedSystem = c.String "managed_system" ∧
      cfg.HMCManagedSystemOnly = c.Bool "managed_system-only" ∧
      cfg.HMCSamples = c.Int "samples" ∧
      cfg.InfluxdbServer = c.GlobalString "server" ∧
      cfg.InfluxdbUser = c.GlobalString "user" ∧
      cfg.InfluxdbPort = c.GlobalString "port" ∧
      cfg.InfluxdbDatabase = c.GlobalString "db" ∧
      cfg.InfluxdbPassword = c.GlobalString "pass" ∧
      cfg.Timezone = c.GlobalString "tz" := by
  cases hbuild : c.Bool "build"
  · refine ⟨_, _, ParseParameters_without_build os c fs fs1 p1 base hbuild h1, ?_⟩
    simp [cliOverlay_eq, hbuild]
  · obtain ⟨p2, d, fs2, hd⟩ := h2 hbuild
    refine ⟨_, _, ParseParameters_with_build os c fs fs1 fs2 p1 p2 base d hbuild h1 hd, ?_⟩
    simp [cliOverlay_eq, hbuild]

/-- Witness of C6: the command line of `buildContext` over the configuration file of
`homeFS`; both loads return. -/
theorem ParseParameters_cli_precedence_witness :
    LoadCfgFile toyOS (InitConfig toyOS) homeFS
      = (Outcome.returned ("/home/nmon/.nmon2influxdb.cfg", homeConfig), homeFS) ∧
    ∃ cfg fs2, ParseParameters toyOS buildContext homeFS = (Outcome.returned cfg, fs2) ∧
      cfg.ImportBuildDashboard = true ∧
      cfg.InfluxdbDatabase = "" ∧
      cfg.StatsLimit = 0 :=
  ⟨by decide,
   match ParseParameters_cli_precedence toyOS buildContext homeFS homeFS
     "/home/nmon/.nmon2influxdb.cfg" homeConfig (by decide)
     (fun _ => ⟨"/home/nmon/.nmon2influxdb.cfg", homeConfig, homeFS, by decide⟩) with
   | ⟨cfg, fs2, hpp, hfields⟩ =>
     ⟨cfg, fs2, hpp, hfields.2.2.2.2.2.2.2.2.1,
      hfields.2.2.2.2.2.2.2.2.2.2.2.2.2.2.2.2.2.2.2.2.2.2.2.2.2.1,
      hfields.2.2.2.2.1⟩⟩

/-- C7, as stated, fails: over a store whose `ExistDB` returns an error (and `false`),
`GetDB` and `GetLogDB` go on to `CreateDB` and the retention-policy calls and return
the handle; over a store every call to which fails, `CreateDB` is still issued after
the failed `ExistDB`, and it is the error of `CreateDB` that ends the run. -/
theorem ExistDB_error_not_fatal :
    (failingExistStore.ExistDB emptyStore
        (handleFor failingExistStore retentionConfig "nmon_reports") "nmon_reports").1
      = (false, some "connection refused") ∧
    (GetDB failingExistStore retentionConfig "nmon" { store := emptyStore, calls := [] }).1
      = Outcome.returned (handleFor failingExistStore retentionConfig "nmon_reports") ∧
    (GetDB failingExistStore retentionConfig "nmon" { store := emptyStore, calls := [] }).2.calls
      = [Call.ExistDB "nmon_reports", Call.CreateDB "nmon_reports",
         Call.GetDefaultRetentionPolicy, Call.UpdateRetentionPolicy "autogen" "30d" true] ∧
    (GetLogDB failingExistStore retentionConfig { store := emptyStore, calls := [] }).1
      = Outcome.returned (handleFor failingExistStore retentionConfig "nmon2influxdb_log") ∧
    (GetLogDB failingExistStore retentionConfig { store := emptyStore, calls := [] }).2.calls
      = [Call.ExistDB "nmon2influxdb_log", Call.CreateDB "nmon2influxdb_log",
         Call.SetRetentionPolicy "log_retention" "2d" true] ∧
    (GetDB downStore retentionConfig "nmon" { store := emptyStore, calls := [] }).1
      = Outcome.fatal "connection refused" ∧
    (GetDB downStore retentionConfig "nmon" { store := emptyStore, calls := [] }).2.calls
      = [Call.ExistDB "nmon_reports", Call.CreateDB "nmon_reports"] ∧
    (GetLogDB downStore retentionConfig { store := emptyStore, calls := [] }).2.calls
      = [Call.ExistDB "nmon2influxdb_log", Call.CreateDB "nmon2influxdb_log"] := by
  decide

/-- C7, amended. In `GetDB` and in `GetLogDB` the error returned by `ExistDB` is
discarded and only its boolean is read: each runs exactly as over the store whose
`ExistDB` returns the same boolean and no error. With the boolean false `CreateDB` is
the next call. The run is terminated by the error of the client, of `CreateDB`, of
`GetDefaultRetentionPolicy`, of `SetRetentionPolicy` and of `UpdateRetentionPolicy`,
at the failing call and with no call after it; when none of the calls issued fails,
the handle is returned. -/
theorem ExistDB_error_discarded {σ : Type} (S : Store σ) (config : Config)
    (dbType : String) (w : World σ) :
    (let db := roleDB config dbType
     let retention := roleRetention config dbType
     let h := handleFor S config db
     let ex := S.ExistDB w.store h db
     let w1 : World σ := { store := ex.2, calls := w.calls ++ [Call.ExistDB db] }
     let cr := S.CreateDB ex.2 h db
     let wc : World σ := { store := cr.2, calls := w1.calls ++ [Call.CreateDB db] }
     let w2 : World σ := if ex.1.1 = true then w1 else wc
     let g := S.GetDefaultRetentionPolicy w2.store h
     let w3 : World σ :=
       { store := g.2, calls := w2.calls ++ [Call.GetDefaultRetentionPolicy] }
     let u := S.UpdateRetentionPolicy g.2 h g.1.1 retention true
     let w4 : World σ :=
       { store := u.2
         calls := w3.calls ++ [Call.UpdateRetentionPolicy g.1.1 retention true] }
     let r := GetDB S config dbType w
     r = GetDB S.withoutExistError config dbType w ∧
     (∀ e, connError S config db = some e → r = (Outcome.fatal e, w)) ∧
     (connError S config db = none →
       (ex.1.1 = false → ∀ e, cr.1 = some e → r = (Outcome.fatal e, wc)) ∧
       (ex.1.1 = true ∨ cr.1 = none →
         (retention = "" → r = (Outcome.returned h, w2)) ∧
         (retention ≠ "" →
           (∀ e, g.1.2 = some e → r = (Outcome.fatal e, w3)) ∧
           (g.1.2 = none →
             (∀ e, u.1 = some e → r = (Outcome.fatal e, w4)) ∧
             (u.1 = none → r = (Outcome.returned h, w4))))))) ∧
    (let db := config.ImportLogDatabase
     let retention := config.ImportLogRetention
     let h := handleFor S config db
     let ex := S.ExistDB w.store h db
     let w1 : World σ := { store := ex.2, calls := w.calls ++ [Call.ExistDB db] }
     let cr := S.CreateDB ex.2 h db
     let wc : World σ := { store := cr.2, calls := w1.calls ++ [Call.CreateDB db] }
     let st := S.SetRetentionPolicy cr.2 h "log_retention" retention true
     let ws : World σ :=
       { store := st.2
         calls := wc.calls ++ [Call.SetRetentionPolicy "log_retention" retention true] }
     let up := S.UpdateRetentionPolicy ex.2 h "log_retention" retention true
     let wu : World σ :=
       { store := up.2
         calls := w1.calls ++ [Call.UpdateRetentionPolicy "log_retention" retention true] }
     let r := GetLogDB S config w
     r = GetLogDB S.withoutExistError config w ∧
     (∀ e, connError S config db = some e → r = (Outcome.fatal e, w)) ∧
     (connError S config db = none →
       (ex.1.1 = false →
         (∀ e, cr.1 = some e → r = (Outcome.fatal e, wc)) ∧
         (cr.1 = none →
           (∀ e, st.1 = some e → r = (Outcome.fatal e, ws)) ∧
           (st.1 = none → r = (Outcome.returned h, ws)))) ∧
       (ex.1.1 = true →
         (∀ e, up.1 = some e → r = (Outcome.fatal e, wu)) ∧
         (up.1 = none → r = (Outcome.returned h, wu))))) := by
  constructor
  · dsimp only
    refine ⟨?_, ?_, ?_⟩
    · rw [GetDB_eq S, GetDB_eq S.withoutExistError]
      rfl
    · intro e hn
      rw [GetDB_eq]
      simp [hn]
    · intro hn
      rw [GetDB_eq]
      refine ⟨?_, ?_⟩
      · intro hex e hc
        simp [hn, hex, hc]
      · intro hd
        have hcr : (if (S.ExistDB w.store (handleFor S config (roleDB config dbType)) (roleDB
            config dbType)).1.1 = true then none
            else (S.CreateDB (S.ExistDB w.store (handleFor S config (roleDB config dbType))
                (roleDB config dbType)).2 (handleFor S config (roleDB config dbType)) (roleDB
                config dbType)).1) = none := by
          rcases hd with hex | hc
          · simp [hex]
          · simp [hc]
        refine ⟨?_, ?_⟩
        · intro hret
          simp [hn, hcr, hret]
        · intro hret
          refine ⟨?_, ?_⟩
          · intro e hg
            simp at hg
            simp [hn, hcr, hret, hg]
          · intro hg
            refine ⟨?_, ?_⟩
            · intro e hu
              simp at hg hu
              simp [hn, hcr, hret, hg, hu]
            · intro hu
              simp at hg hu
              simp [hn, hcr, hret, hg, hu]
  · dsimp only
    refine ⟨?_, ?_, ?_⟩
    · rw [GetLogDB_eq S, GetLogDB_eq S.withoutExistError]
      rfl
    · intro e hn
      rw [GetLogDB_eq]
      simp [hn]
    · intro hn
      rw [GetLogDB_eq]
      refine ⟨?_, ?_⟩
      · intro hex
        refine ⟨?_, ?_⟩
        · intro e hc
          simp [hn, hex, hc]
        · intro hc
          refine ⟨?_, ?_⟩
          · intro e hs
            simp [hn, hex, hc, hs]
          · intro hs
            simp [hn, hex, hc, hs]
      · intro hex
        refine ⟨?_, ?_⟩
        · intro e hu
          simp [hn, hex, hu]
        · intro hu
          simp [hn, hex, hu]

/-- Witness of C7 (amended): over a store every call to which fails, the failed
`ExistDB` is followed by `CreateDB`, whose error ends the run; over a store whose
`ExistDB` and `UpdateRetentionPolicy` fail, the run goes on through `CreateDB` and
`GetDefaultRetentionPolicy` and is ended by the error of `UpdateRetentionPolicy`. -/
theorem ExistDB_error_discarded_witness :
    GetDB downStore retentionConfig "nmon" { store := emptyStore, calls := [] }
      = (Outcome.fatal "connection refused",
         { store := emptyStore
           calls := [Call.ExistDB "nmon_reports", Call.CreateDB "nmon_reports"] }) ∧
    GetDB failingUpdateStore retentionConfig "nmon" { store := emptyStore, calls := [] }
      = (Outcome.fatal "retention policy not found",
         { store := { created := ["nmon_reports"], defaults := [], policies := [] }
           calls := [Call.ExistDB "nmon_reports", Call.CreateDB "nmon_reports",
             Call.GetDefaultRetentionPolicy,
             Call.UpdateRetentionPolicy "autogen" "30d" true] }) :=
  ⟨((ExistDB_error_discarded downStore retentionConfig "nmon"
      { store := emptyStore, calls := [] }).1.2.2 rfl).1 rfl "connection refused" rfl,
   (((((ExistDB_error_discarded failingUpdateStore retentionConfig "nmon"
      { store := emptyStore, calls := [] }).1.2.2 rfl).2 (Or.inr rfl)).2 (by decide)).2 rfl).1
      "retention policy not found" rfl⟩

/-- C8, as stated, fails: when the configuration file exists and cannot be opened,
`LoadCfgFile` returns normally with the base configuration unchanged, although the
file, once readable, changes it. -/
theorem LoadCfgFile_open_failure_returns :
    toyOS.Open lockedFS "/home/nmon/.nmon2influxdb.cfg" = some "permission denied" ∧
    LoadCfgFile toyOS (InitConfig toyOS) lockedFS
      = (Outcome.returned ("/home/nmon/.nmon2influxdb.cfg", InitConfig toyOS), lockedFS) ∧
    LoadCfgFile toyOS (InitConfig toyOS) homeFS
      = (Outcome.returned ("/home/nmon/.nmon2influxdb.cfg", homeConfig), homeFS) ∧
    homeConfig ≠ InitConfig toyOS := by
  decide

/-- C8, amended. `LoadCfgFile` ends in one of three ways: the process is terminated;
it returns the configuration the file's keys give over the base; or the file could
not be opened and it returns the base configuration unchanged. A failure to create
the file, to marshal the configuration, to read the file or to deserialize it
terminates the process; a failure to open the file does not. -/
theorem LoadCfgFile_outcomes {φ : Type} (os : OS φ) (config : Config) (fs : φ) :
    ((∃ e, (LoadCfgFile os config fs).1 = Outcome.fatal e) ∨
     (∃ loaded,
        os.Open (LoadCfgFile os config fs).2 (GetCfgFile os fs) = none ∧
        (os.ReadAll (LoadCfgFile os config fs).2 (GetCfgFile os fs)).2 = none ∧
        os.Unmarshal (os.ReadAll (LoadCfgFile os config fs).2 (GetCfgFile os fs)).1 config
          = Except.ok loaded ∧
        (LoadCfgFile os config fs).1 = Outcome.returned (GetCfgFile os fs, loaded)) ∨
     (os.Open (LoadCfgFile os config fs).2 (GetCfgFile os fs) ≠ none ∧
        (LoadCfgFile os config fs).1 = Outcome.returned (GetCfgFile os fs, config))) ∧
    (IsFile os fs (GetCfgFile os fs) = false →
      ∀ e, (os.Create fs (GetCfgFile os fs)).1 = some e →
        LoadCfgFile os config fs = (Outcome.fatal e, (os.Create fs (GetCfgFile os fs)).2)) ∧
    (IsFile os fs (GetCfgFile os fs) = false →
      (os.Create fs (GetCfgFile os fs)).1 = none →
      ∀ e, (os.Marshal config).2 = some e →
        LoadCfgFile os config fs = (Outcome.fatal e, (os.Create fs (GetCfgFile os fs)).2)) ∧
    (∀ fs1, bootstrap os config fs = (Outcome.returned (), fs1) →
      (∀ e, os.Open fs1 (GetCfgFile os fs) = some e →
        LoadCfgFile os config fs = (Outcome.returned (GetCfgFile os fs, config), fs1)) ∧
      (os.Open fs1 (GetCfgFile os fs) = none →
        (∀ e, (os.ReadAll fs1 (GetCfgFile os fs)).2 = some e →
          LoadCfgFile os config fs = (Outcome.fatal e, fs1)) ∧
        ((os.ReadAll fs1 (GetCfgFile os fs)).2 = none →
          (∀ e, os.Unmarshal (os.ReadAll fs1 (GetCfgFile os fs)).1 config = Except.error e →
            LoadCfgFile os config fs = (Outcome.fatal e, fs1)) ∧
          (∀ loaded,
            os.Unmarshal (os.ReadAll fs1 (GetCfgFile os fs)).1 config = Except.ok loaded →
            LoadCfgFile os config fs
              = (Outcome.returned (GetCfgFile os fs, loaded), fs1))))) := by
  refine ⟨?_, ?_, ?_, ?_⟩
  · rw [LoadCfgFile_eq]
    rcases hb : bootstrap os config fs with ⟨o, fs1⟩
    cases o with
    | fatal e => exact Or.inl ⟨e, rfl⟩
    | returned u =>
      cases ho : os.Open fs1 (GetCfgFile os fs) with
      | some e => exact Or.inr (Or.inr (by simp [ho]))
      | none =>
        cases hr : (os.ReadAll fs1 (GetCfgFile os fs)).2 with
        | some e => exact Or.inl ⟨e, by simp [ho, hr]⟩
        | none =>
          cases hu : os.Unmarshal (os.ReadAll fs1 (GetCfgFile os fs)).1 config with
          | error e => exact Or.inl ⟨e, by simp [ho, hr, hu]⟩
          | ok loaded => exact Or.inr (Or.inl ⟨loaded, by simp [ho, hr, hu]⟩)
  · intro hf e hc
    simp [LoadCfgFile_eq, bootstrap, hf, BuildCfgFile_eq, hc]
  · intro hf hc e hm
    simp [LoadCfgFile_eq, bootstrap, hf, BuildCfgFile_eq, hc, hm]
  · intro fs1 hb
    refine ⟨?_, ?_⟩
    · intro e ho
      simp [LoadCfgFile_eq, hb, ho]
    · intro ho
      refine ⟨?_, ?_⟩
      · intro e hr
        simp [LoadCfgFile_eq, hb, ho, hr]
      · intro hr
        refine ⟨?_, ?_⟩
        · intro e hu
          simp [LoadCfgFile_eq, hb, ho, hr, hu]
        · intro loaded hu
          simp [LoadCfgFile_eq, hb, ho, hr, hu]

/-- Witness of C8 (amended): the configuration file of `lockedFS` cannot be opened
and the base configuration is returned; that of `homeFS` is applied over the base. -/
theorem LoadCfgFile_outcomes_witness :
    LoadCfgFile toyOS (InitConfig toyOS) lockedFS
      = (Outcome.returned (GetCfgFile toyOS lockedFS, InitConfig toyOS), lockedFS) ∧
    LoadCfgFile toyOS (InitConfig toyOS) homeFS
      = (Outcome.returned (GetCfgFile toyOS homeFS, homeConfig), homeFS) :=
  ⟨((LoadCfgFile_outcomes toyOS (InitConfig toyOS) lockedFS).2.2.2 lockedFS
      (by decide)).1 "permission denied" (by decide),
   ((((LoadCfgFile_outcomes toyOS (InitConfig toyOS) homeFS).2.2.2 homeFS
      (by decide)).2 (by decide)).2 (by decide)).2 homeConfig rfl⟩

/-- C9. The code departs from its doc comment ("IsFile returns true if the file
doesn't exist"): nothing exists at the system-wide path of the empty file system, the
stat fails, and `IsFile` returns false. -/
theorem IsFile_missing_is_false :
    toyOS.Stat emptyFS "/etc/nmon2influxdb/nmon2influxdb.cfg"
      = Except.error "no such file or directory" ∧
    IsFile toyOS emptyFS "/etc/nmon2influxdb/nmon2influxdb.cfg" = false :=
  ⟨rfl, by decide⟩

/-- C10. Complement of the dashboard quirk: when the loads of the configuration file
return, `ParseParameters` returns a configuration whose `ImportBuildDashboard` is the
`build` flag; if the flag is false the five Grafana fields hold what the command line
returns for `guser`, `gpassword`, `gaccess`, `gurl` and `datasource`, and if it is
true they hold the values of the defaults-and-file configuration loaded by
`AddDashboardParams`. -/
theorem ParseParameters_dashboard_source {φ : Type} (os : OS φ) (c : Context)
    (fs fs1 : φ) (p1 : String) (base : Config)
    (h1 : LoadCfgFile os (InitConfig os) fs = (Outcome.returned (p1, base), fs1))
    (h2 : c.Bool "build" = true →
      ∃ p2 d fs2, LoadCfgFile os (InitConfig os) fs1 = (Outcome.returned (p2, d), fs2)) :
    ∃ cfg fs2, ParseParameters os c fs = (Outcome.returned cfg, fs2) ∧
      cfg.ImportBuildDashboard = c.Bool "build" ∧
      (c.Bool "build" = false →
        fs2 = fs1 ∧
        cfg.GrafanaUser = c.String "guser" ∧
        cfg.GrafanaPassword = c.String "gpassword" ∧
        cfg.GrafanaAccess = c.String "gaccess" ∧
        cfg.GrafanaURL = c.String "gurl" ∧
        cfg.GrafanaDatasource = c.String "datasource") ∧
      (c.Bool "build" = true →
        ∃ p2 d, LoadCfgFile os (InitConfig os) fs1 = (Outcome.returned (p2, d), fs2) ∧
          cfg.GrafanaUser = d.GrafanaUser ∧
          cfg.GrafanaPassword = d.GrafanaPassword ∧
          cfg.GrafanaAccess = d.GrafanaAccess ∧
          cfg.GrafanaURL = d.GrafanaURL ∧
          cfg.GrafanaDatasource = d.GrafanaDatasource) := by
  cases hbuild : c.Bool "build"
  · refine ⟨_, _, ParseParameters_without_build os c fs fs1 p1 base hbuild h1, ?_, ?_, ?_⟩
    · simp [cliOverlay_eq, hbuild]
    · intro _
      simp [cliOverlay_eq]
    · intro hf
      cases hf
  · obtain ⟨p2, d, fs2, hd⟩ := h2 hbuild
    refine ⟨_, _, ParseParameters_with_build os c fs fs1 fs2 p1 p2 base d hbuild h1 hd,
      ?_, ?_, ?_⟩
    · simp [cliOverlay_eq, hbuild]
    · intro hf
      cases hf
    · intro _
      exact ⟨p2, d, hd, rfl, rfl, rfl, rfl, rfl⟩

/-- Witness of C10: no dashboard is asked for; the bootstrap writes the configuration
file of the empty file system. -/
theorem ParseParameters_dashboard_source_witness :
    (LoadCfgFile toyOS (InitConfig toyOS) emptyFS).1
      = Outcome.returned ("/home/nmon/.nmon2influxdb.cfg", InitConfig toyOS) ∧
    ∃ cfg fs2, ParseParameters toyOS zeroContext emptyFS = (Outcome.returned cfg, fs2) ∧
      cfg.ImportBuildDashboard = false ∧
      cfg.GrafanaUser = "" ∧ cfg.GrafanaURL = "" :=
  ⟨by decide,
   match ParseParameters_dashboard_source toyOS zeroContext emptyFS
     (LoadCfgFile toyOS (InitConfig toyOS) emptyFS).2
     "/home/nmon/.nmon2influxdb.cfg" (InitConfig toyOS) (by decide)
     (fun h => absurd h (by decide)) with
   | ⟨cfg, fs2, hpp, hb, hfalse, _⟩ =>
     ⟨cfg, fs2, hpp, hb, (hfalse rfl).2.1, (hfalse rfl).2.2.2.2.1⟩⟩

end Nmon2influxdb
